import Mathlib

/-!
Shallow embedding of the AI Invoice Analyzer (src/main.py), a single-endpoint
FastAPI service: upload → content-type dispatch → PDF text extraction or
image base64 encoding → chat-completion call → JSON schema validation
(pydantic `InvoiceData`) → normalization → HTTP response.

External effects (file bytes, PyMuPDF page texts, the model endpoint, JSON
text parsing) are supplied by an `Env` record; the handler itself is a pure
function of the environment that also returns the ordered trace of effectful
steps it performed.
-/

namespace InvoiceAnalyzer

/-- JSON values, as produced by parsing the model's raw text output.
Numbers are modelled as rationals (pydantic coerces JSON integers to float
for the `Union[str, float]` field; the exact value is what matters here). -/
inductive Json where
  | null
  | bool (b : Bool)
  | num (q : ℚ)
  | str (s : String)
  | arr (elems : List Json)
  | obj (fields : List (String × Json))

/-- `total_amount: Union[str, float]` from src/main.py line 50: a tagged
variant, string or number. -/
inductive Amount where
  | str (s : String)
  | num (q : ℚ)
deriving DecidableEq

/-- The pydantic model `InvoiceData` (src/main.py lines 45-52). Optional
fields model `Optional[str] = None`; `currency` is `Optional[str] = "USD"`;
`valid` is `bool = True`. -/
structure InvoiceData where
  vendor : Option String
  invoice_number : Option String
  invoice_date : Option String
  due_date : Option String
  total_amount : Amount
  currency : Option String
  valid : Bool
deriving DecidableEq

/-- Look up a key in a JSON object's field list (first occurrence). -/
def getField (kvs : List (String × Json)) (k : String) : Option Json :=
  (kvs.find? (fun p => p.1 = k)).map (fun p => p.2)

/-- Validation of an `Optional[str] = None` pydantic field: absent or null
gives `none`, a JSON string is accepted, anything else is a type error. -/
def validateOptStr (name : String) (v : Option Json) : Except String (Option String) :=
  match v with
  | none => .ok none
  | some .null => .ok none
  | some (.str s) => .ok (some s)
  | some _ => .error (name ++ ": Input should be a valid string")

/-- Validation of the required `total_amount: Union[str, float]` field:
absent is "Field required"; a JSON string or number is accepted. -/
def validateAmount (v : Option Json) : Except String Amount :=
  match v with
  | none => .error "total_amount: Field required"
  | some (.str s) => .ok (Amount.str s)
  | some (.num q) => .ok (Amount.num q)
  | some _ => .error "total_amount: Input should be a valid string or number"

/-- Validation of `currency: Optional[str] = "USD"`: an absent field takes
the default "USD"; an explicit null gives `none`; a string is accepted. -/
def validateCurrency (v : Option Json) : Except String (Option String) :=
  match v with
  | none => .ok (some "USD")
  | some .null => .ok none
  | some (.str s) => .ok (some s)
  | some _ => .error ("currency: Input should be a valid string")

/-- Validation of `valid: bool = True`: an absent field defaults to true. -/
def validateValid (v : Option Json) : Except String Bool :=
  match v with
  | none => .ok true
  | some (.bool b) => .ok b
  | some _ => .error ("valid: Input should be a valid boolean")

/-- The schema check performed by `InvoiceData.model_validate_json`
(src/main.py line 177) on an already-parsed JSON value: the input must be
an object; each declared field is validated; unknown extra fields are
ignored; `total_amount` is required. -/
def validateInvoice (j : Json) : Except String InvoiceData :=
  match j with
  | .obj kvs =>
    match validateOptStr "vendor" (getField kvs "vendor") with
    | .error e => .error e
    | .ok vendor =>
      match validateOptStr "invoice_number" (getField kvs "invoice_number") with
      | .error e => .error e
      | .ok invoice_number =>
        match validateOptStr "invoice_date" (getField kvs "invoice_date") with
        | .error e => .error e
        | .ok invoice_date =>
          match validateOptStr "due_date" (getField kvs "due_date") with
          | .error e => .error e
          | .ok due_date =>
            match validateAmount (getField kvs "total_amount") with
            | .error e => .error e
            | .ok total_amount =>
              match validateCurrency (getField kvs "currency") with
              | .error e => .error e
              | .ok currency =>
                match validateValid (getField kvs "valid") with
                | .error e => .error e
                | .ok valid =>
                  .ok ⟨vendor, invoice_number, invoice_date, due_date,
                       total_amount, currency, valid⟩
  | _ => .error "Input should be a valid dictionary or object"

/-- Round a rational to the nearest integer, ties to the even integer
(the rounding used by Python's fixed-point float formatting), computed on
the fraction `n / d` with `d > 0`: the floor is `n.ediv d`, the fractional
part is `(n.emod d) / d`, and `2 * (n.emod d) ? d` decides the half. -/
def roundHalfEven (q : ℚ) : ℤ :=
  let n : ℤ := q.num
  let d : ℤ := (q.den : ℤ)
  let fl : ℤ := Int.ediv n d
  let r : ℤ := Int.emod n d
  if 2 * r < d then fl
  else if d < 2 * r then fl + 1
  else if fl % 2 = 0 then fl else fl + 1

/-- Pad a one-character digit string to two characters. -/
def padLeft2 (s : String) : String :=
  if s.length = 1 then "0" ++ s else s

/-- Model of the Python format expression `f"{x:.2f}"` (src/main.py line
69) on the numeric value `x`: round to the nearest hundredth (ties to even)
and print with exactly two digits after the decimal point. -/
def formatTwoDec (x : ℚ) : String :=
  let c : ℤ := roundHalfEven (mkRat (x.num * 100) x.den)
  let a : ℕ := c.natAbs
  let sign : String := if x < 0 then "-" else ""
  sign ++ toString (a / 100) ++ "." ++ padLeft2 (toString (a % 100))

/-- `normalize_invoice` (src/main.py lines 67-70): if `total_amount` is a
float, replace it by its 2-decimal-place string; otherwise return the
record unchanged. -/
def normalize_invoice (data : InvoiceData) : InvoiceData :=
  match data.total_amount with
  | Amount.num q => { data with total_amount := Amount.str (formatTwoDec q) }
  | Amount.str _ => data

/-! ## The chat-completion request payload -/

/-- One part of a multimodal user message (the image branch sends a list of
a text part and an image-URL part). -/
inductive ContentPart where
  | text (s : String)
  | image_url (url : String)

/-- The content of a chat message: plain text, or a list of parts. -/
inductive MsgContent where
  | text (s : String)
  | parts (ps : List ContentPart)

/-- A role-tagged chat message. -/
structure Message where
  role : String
  content : MsgContent

/-- The payload of one `client.chat.completions.create` call. -/
structure ModelRequest where
  model : String
  messages : List Message
  temperature : ℚ

/-- The fixed extraction prompt (src/main.py lines 87-127), verbatim,
including the leading and trailing newlines of the triple-quoted string. -/
def prompt : String :=
  "\nYou are an AI system specialized in parsing invoices and receipts from BOTH\nIMAGES and PDF DOCUMENTS.\n\nYour task:\nCarefully read ALL visible or extracted text, including:\n- Company / Store / Seller name\n- Logo text\n- Header text at the top of the document\n- Footer text\n- Invoice metadata blocks\n- Total and payment sections\n\nVENDOR EXTRACTION (VERY IMPORTANT):\n- The vendor is the STORE / COMPANY / SELLER issuing the invoice.\n- It is usually the MOST PROMINENT business name.\n- It is often located at the TOP of the image or the FIRST lines of the PDF text.\n- If text such as \"Seller\", \"Store\", \"Ltd\", or similar appears,\n  that MUST be returned as the vendor.\n- Ignore customer names, delivery names, and payment gateways.\n\nExtract and return ONLY valid JSON with the following fields:\n- vendor (string or null)\n- invoice_number (string or null)\n- invoice_date (string or null, format YYYY-MM-DD if possible)\n- due_date (string or null, format YYYY-MM-DD if possible)\n- total_amount (string or number)\n- currency (ISO 4217 code like USD, BDT, EUR if visible; otherwise null)\n- valid (true or false)\n\nRules:\n- Use null if a field is missing or not clearly visible.\n- Do NOT guess values.\n- Do NOT hallucinate.\n- If critical fields like vendor or total_amount are missing,\n  set valid to false.\n- Do NOT include explanations or extra text.\n- Output MUST be valid JSON ONLY.\n\n\n"

/-! ## base64 encoding of the image bytes (src/main.py line 154) -/

/-- The base64 alphabet. -/
def base64Table : List Char :=
  "ABCDEFGHIJKLMNOPQRSTUVWXYZabcdefghijklmnopqrstuvwxyz0123456789+/".toList

/-- The base64 digit for a 6-bit value. -/
def base64Char (n : Nat) : Char := base64Table.getD n 'A'

/-- Standard base64 encoding of a byte list (values < 256), with `=`
padding, as performed by `base64.b64encode`. -/
def base64Encode : List Nat → String
  | [] => ""
  | [a] =>
    String.mk [base64Char (a / 4), base64Char (a % 4 * 16)] ++ "=="
  | [a, b] =>
    String.mk [base64Char (a / 4), base64Char (a % 4 * 16 + b / 16),
               base64Char (b % 16 * 4)] ++ "="
  | a :: b :: c :: rest =>
    String.mk [base64Char (a / 4), base64Char (a % 4 * 16 + b / 16),
               base64Char (b % 16 * 4 + c / 64), base64Char (c % 64)] ++
    base64Encode rest

/-! ## The request handler (src/main.py lines 76-183) -/

/-- The environment of one request: everything the handler consumes that
comes from outside the program text. `fileBytes` is the uploaded file's
content; `modelName` is the `MODEL_NAME` configuration; `pdfPages` is
PyMuPDF (`fitz.open` + per-page `get_text`, error = the raised exception's
message); `modelCall` is the chat-completion endpoint (error = the raised
exception's message, ok = `choices[0].message.content`); `parseJson` is the
JSON text parser inside `model_validate_json` (error = the syntax-error
message). -/
structure Env where
  fileBytes : List Nat
  modelName : String
  pdfPages : List Nat → Except String (List String)
  modelCall : ModelRequest → Except String String
  parseJson : String → Except String Json

/-- A raised Python exception: either a FastAPI `HTTPException` with status
code and detail, or any other exception carrying `str(e)`. -/
inductive Exc where
  | httpExc (status : Nat) (detail : String)
  | other (msg : String)
deriving DecidableEq

/-- The effectful steps of the handler, in the order performed: reading the
uploaded bytes, extracting PDF text, calling the model endpoint. -/
inductive Event where
  | readFile
  | extractText
  | modelCall
deriving DecidableEq

/-- Python's `str.strip()`: drop leading and trailing whitespace. -/
def pyStrip (s : String) : String :=
  String.mk (((s.toList.dropWhile Char.isWhitespace).reverse.dropWhile
    Char.isWhitespace).reverse)

/-- `extract_text_from_pdf` (src/main.py lines 59-64): concatenate the text
of every page in order and strip leading/trailing whitespace; a PyMuPDF
failure propagates as an exception. -/
def extract_text_from_pdf (env : Env) (pdf_bytes : List Nat) : Except String String :=
  match env.pdfPages pdf_bytes with
  | .error e => .error e
  | .ok pages => .ok (pyStrip (String.join pages))

/-- The request of the PDF branch (src/main.py lines 140-150). -/
def pdfRequest (env : Env) (extracted_text : String) : ModelRequest :=
  { model := env.modelName
    messages :=
      [⟨"system", MsgContent.text "You extract invoice data from text."⟩,
       ⟨"user", MsgContent.text (prompt ++ "\n\nINVOICE TEXT:\n" ++ extracted_text)⟩]
    temperature := 0 }

/-- The request of the image branch (src/main.py lines 156-174): the prompt
as a text part plus a data-URI image part. -/
def imageRequest (env : Env) (content_type encoded_image : String) : ModelRequest :=
  { model := env.modelName
    messages :=
      [⟨"system", MsgContent.text "You extract invoice data from images."⟩,
       ⟨"user", MsgContent.parts
          [ContentPart.text prompt,
           ContentPart.image_url
             ("data:" ++ content_type ++ ";base64," ++ encoded_image)]⟩]
    temperature := 0 }

/-- The three accepted content types (src/main.py lines 78-82). -/
def allowed_types : List String := ["image/png", "image/jpeg", "application/pdf"]

/-- `result = response.choices[0].message.content` followed by
`InvoiceData.model_validate_json(result)` and `normalize_invoice`
(src/main.py lines 176-178): a JSON syntax error or schema violation
raises a plain (non-HTTP) exception. -/
def parseAndNormalize (env : Env) (result : String) : Except Exc InvoiceData :=
  match env.parseJson result with
  | .error e => .error (Exc.other e)
  | .ok j =>
    match validateInvoice j with
    | .error e => .error (Exc.other e)
    | .ok invoice => .ok (normalize_invoice invoice)

/-- The body of `analyze_invoice` (src/main.py lines 77-178) up to but not
including the `except` clauses: content-type check, file read, branch
dispatch, model call, validation, normalization. Returns the outcome
together with the ordered trace of effectful steps performed. -/
def analyze_invoice_body (env : Env) (content_type : String) :
    Except Exc InvoiceData × List Event :=
  if content_type ∉ allowed_types then
    (.error (Exc.httpExc 400 "Unsupported file type"), [])
  else
    let file_bytes := env.fileBytes
    if content_type = "application/pdf" then
      match extract_text_from_pdf env file_bytes with
      | .error e => (.error (Exc.other e), [Event.readFile, Event.extractText])
      | .ok extracted_text =>
        if extracted_text = "" then
          (.error (Exc.httpExc 400 "No readable text found in PDF (possibly scanned)"),
           [Event.readFile, Event.extractText])
        else
          match env.modelCall (pdfRequest env extracted_text) with
          | .error e =>
            (.error (Exc.other e), [Event.readFile, Event.extractText, Event.modelCall])
          | .ok result =>
            (parseAndNormalize env result,
             [Event.readFile, Event.extractText, Event.modelCall])
    else
      let encoded_image := base64Encode file_bytes
      match env.modelCall (imageRequest env content_type encoded_image) with
      | .error e => (.error (Exc.other e), [Event.readFile, Event.modelCall])
      | .ok result => (parseAndNormalize env result, [Event.readFile, Event.modelCall])

/-- The `except` clauses (src/main.py lines 180-183): an `HTTPException`
is re-raised unchanged; any other exception becomes
`HTTPException(status_code=500, detail=str(e))`. The final outcome is
either the record or a (status, detail) error response. -/
def handleExc (r : Except Exc InvoiceData) : Except (Nat × String) InvoiceData :=
  match r with
  | .ok d => .ok d
  | .error (Exc.httpExc status detail) => .error (status, detail)
  | .error (Exc.other msg) => .error (500, msg)

/-- The full `analyze_invoice` endpoint (src/main.py lines 76-183): body
plus exception mapping, with the trace of effectful steps. -/
def analyze_invoice (env : Env) (content_type : String) :
    Except (Nat × String) InvoiceData × List Event :=
  let r := analyze_invoice_body env content_type
  (handleExc r.1, r.2)

/-- Whether a JSON value is an object carrying the given key. -/
def hasField (j : Json) (k : String) : Bool :=
  match j with
  | .obj kvs => (kvs.find? (fun p => p.1 = k)).isSome
  | _ => false

/-! ## Concrete environments and records used to instantiate the theorems -/

/-- An environment whose model endpoint and JSON parsing fail. -/
def envDown : Env :=
  { fileBytes := []
    modelName := "gpt-test"
    pdfPages := fun _ => .ok []
    modelCall := fun _ => .error "model endpoint unreachable"
    parseJson := fun _ => .error "Expecting value: line 1 column 1" }

/-- An environment whose model call succeeds and whose response parses to
an object with a numeric `total_amount` of 250. -/
def envOK : Env :=
  { fileBytes := []
    modelName := "gpt-test"
    pdfPages := fun _ => .ok [" Acme Ltd Total: 250.00 USD "]
    modelCall := fun _ => .ok "raw model output"
    parseJson := fun _ => .ok (Json.obj [("total_amount", Json.num 250)]) }

/-- An environment whose model call succeeds but whose response, though
valid JSON, has no `total_amount` field. -/
def envNoTotal : Env :=
  { fileBytes := []
    modelName := "gpt-test"
    pdfPages := fun _ => .ok []
    modelCall := fun _ => .ok "raw model output"
    parseJson := fun _ => .ok (Json.obj [("vendor", Json.str "Acme Ltd")]) }

/-- A record whose `total_amount` arrived as the number 1234.5. -/
def recNum : InvoiceData :=
  ⟨some "Acme Ltd", some "1001", none, none, Amount.num (mkRat 12345 10),
   some "USD", true⟩

/-- The record validated from `envOK`'s model response, after
normalization. -/
def recOK : InvoiceData :=
  ⟨none, none, none, none, Amount.str "250.00", some "USD", true⟩

/-- A record validated from a model response whose only field is a string
`total_amount`. -/
def recStr5 : InvoiceData :=
  ⟨none, none, none, none, Amount.str "5", some "USD", true⟩

/-! ## Theorems -/

/-- C2: for every uploaded file whose declared content type is not exactly
one of image/png, image/jpeg, application/pdf, `analyze_invoice` fails
with HTTP 400 and the fixed detail "Unsupported file type", regardless of
the file's byte content (the environment, hence the bytes, is universally
quantified). -/
theorem unsupported_content_type_yields_400 (env : Env) (ct : String)
    (h : ct ∉ allowed_types) :
    (analyze_invoice env ct).1 = Except.error (400, "Unsupported file type") := by
  unfold analyze_invoice analyze_invoice_body
  rw [if_pos h]
  rfl

/-- Witness for C2: content type text/plain is rejected with 400. -/
theorem unsupported_content_type_yields_400_witness :
    (analyze_invoice envDown "text/plain").1 =
      Except.error (400, "Unsupported file type") :=
  unsupported_content_type_yields_400 envDown "text/plain" (by decide)

/-- C8: for every upload with a disallowed content type the handler
performs no effectful step at all — the trace is empty, so the file bytes
are never read, no text extraction runs, and the Model Client Adapter is
never invoked. -/
theorem unsupported_content_type_no_effects (env : Env) (ct : String)
    (h : ct ∉ allowed_types) :
    (analyze_invoice env ct).2 = [] ∧
    Event.modelCall ∉ (analyze_invoice env ct).2 := by
  have h2 : (analyze_invoice env ct).2 = [] := by
    unfold analyze_invoice analyze_invoice_body
    rw [if_pos h]
  exact ⟨h2, by rw [h2]; simp⟩

/-- Witness for C8: content type text/html triggers no file read, no
extraction, and no model call. -/
theorem unsupported_content_type_no_effects_witness :
    (analyze_invoice envDown "text/html").2 = [] ∧
    Event.modelCall ∉ (analyze_invoice envDown "text/html").2 :=
  unsupported_content_type_no_effects envDown "text/html" (by decide)

/-- C3: for every upload with content type application/pdf whose
extracted, trimmed text is the empty string, `analyze_invoice` fails with
HTTP 400 and the no-readable-text detail, and the trace stops after the
extraction step: the model endpoint is never called and no OCR fallback
runs. -/
theorem empty_pdf_yields_400_no_model_call (env : Env)
    (h : extract_text_from_pdf env env.fileBytes = Except.ok "") :
    (analyze_invoice env "application/pdf").1 =
      Except.error (400, "No readable text found in PDF (possibly scanned)")
    ∧ (analyze_invoice env "application/pdf").2 =
      [Event.readFile, Event.extractText]
    ∧ Event.modelCall ∉ (analyze_invoice env "application/pdf").2 := by
  unfold analyze_invoice analyze_invoice_body
  rw [if_neg (by decide : ¬("application/pdf" ∉ allowed_types))]
  rw [if_pos (rfl : "application/pdf" = "application/pdf")]
  rw [h]
  exact ⟨rfl, rfl, by simp⟩

/-- Witness for C3: a PDF with no pages extracts to the empty string and
is rejected with 400 before any model call. -/
theorem empty_pdf_yields_400_no_model_call_witness :
    (analyze_invoice envDown "application/pdf").1 =
      Except.error (400, "No readable text found in PDF (possibly scanned)")
    ∧ (analyze_invoice envDown "application/pdf").2 =
      [Event.readFile, Event.extractText]
    ∧ Event.modelCall ∉ (analyze_invoice envDown "application/pdf").2 :=
  empty_pdf_yields_400_no_model_call envDown rfl

/-- Two-decimal tails: the fractional digit string always has length 2. -/
theorem padLeft2_toString_length :
    ∀ n : Nat, n < 100 → (padLeft2 (toString n)).length = 2 := by decide

/-- C4: for every record, the Normalizer maps a numeric `total_amount` to
its fixed two-decimal string (`formatTwoDec`, with the literal instance
1234.5 ↦ "1234.50"), leaves a string `total_amount` unchanged, and every
`formatTwoDec` output has exactly two digits after the decimal point. -/
theorem normalize_formats_two_decimals (d : InvoiceData) (q : ℚ) (s : String) :
    (d.total_amount = Amount.num q →
      normalize_invoice d = { d with total_amount := Amount.str (formatTwoDec q) })
    ∧ (d.total_amount = Amount.str s → normalize_invoice d = d)
    ∧ formatTwoDec (mkRat 12345 10) = "1234.50"
    ∧ ∀ r : ℚ, ∃ ip fp, formatTwoDec r = ip ++ "." ++ fp ∧ fp.length = 2 := by
  refine ⟨?_, ?_, by decide, ?_⟩
  · intro h
    unfold normalize_invoice
    rw [h]
  · intro h
    unfold normalize_invoice
    rw [h]
  · intro r
    refine ⟨(if r < 0 then "-" else "") ++
        toString ((roundHalfEven (mkRat (r.num * 100) r.den)).natAbs / 100),
      padLeft2 (toString ((roundHalfEven (mkRat (r.num * 100) r.den)).natAbs % 100)),
      rfl, ?_⟩
    exact padLeft2_toString_length _ (Nat.mod_lt _ (by norm_num))

/-- Witness for C4: the number 1234.5 is normalized to the literal string
"1234.50". -/
theorem normalize_formats_two_decimals_witness :
    normalize_invoice recNum = { recNum with total_amount := Amount.str "1234.50" }
    ∧ formatTwoDec (mkRat 12345 10) = "1234.50" := by
  have h := normalize_formats_two_decimals recNum (mkRat 12345 10) ""
  have h1 := h.1 rfl
  have h3 := h.2.2.1
  rw [h3] at h1
  exact ⟨h1, h3⟩

/-- C6: the Normalizer is idempotent — applying `normalize_invoice` twice
equals applying it once — and every record whose `total_amount` is a
string is a fixed point. -/
theorem normalize_idempotent (d : InvoiceData) (s : String) :
    normalize_invoice (normalize_invoice d) = normalize_invoice d
    ∧ normalize_invoice { d with total_amount := Amount.str s } =
      { d with total_amount := Amount.str s } := by
  constructor
  · cases h : d.total_amount <;> simp [normalize_invoice, h]
  · simp [normalize_invoice]

/-- C9: the Normalizer modifies only `total_amount`: vendor,
invoice_number, invoice_date, due_date, currency, and valid are returned
exactly as they came in. -/
theorem normalize_touches_only_total_amount (d : InvoiceData) :
    (normalize_invoice d).vendor = d.vendor
    ∧ (normalize_invoice d).invoice_number = d.invoice_number
    ∧ (normalize_invoice d).invoice_date = d.invoice_date
    ∧ (normalize_invoice d).due_date = d.due_date
    ∧ (normalize_invoice d).currency = d.currency
    ∧ (normalize_invoice d).valid = d.valid := by
  cases h : d.total_amount <;> simp [normalize_invoice, h]

/-- The Normalizer never changes the currency field. -/
theorem normalize_invoice_currency (d : InvoiceData) :
    (normalize_invoice d).currency = d.currency := by
  cases h : d.total_amount <;> simp [normalize_invoice, h]

/-- C5: for every model response (a JSON object `kvs`) in which the
currency field is unspecified (absent), a successfully validated record
has currency "USD", and normalization keeps it; the pipeline therefore
returns "USD" as the documented default. -/
theorem absent_currency_defaults_to_usd (kvs : List (String × Json))
    (d : InvoiceData)
    (hcur : getField kvs "currency" = none)
    (hok : validateInvoice (Json.obj kvs) = Except.ok d) :
    d.currency = some "USD" ∧ (normalize_invoice d).currency = some "USD" := by
  have hc : d.currency = some "USD" := by
    unfold validateInvoice at hok
    simp only [hcur, validateCurrency] at hok
    repeat' split at hok
    all_goals cases hok
    all_goals rfl
  exact ⟨hc, by rw [normalize_invoice_currency]; exact hc⟩

/-- Witness for C5: a response carrying only `total_amount` validates to a
record whose currency is "USD". -/
theorem absent_currency_defaults_to_usd_witness :
    recStr5.currency = some "USD"
    ∧ (normalize_invoice recStr5).currency = some "USD" :=
  absent_currency_defaults_to_usd [("total_amount", Json.str "5")] recStr5 rfl rfl

/-- After normalization the total amount is always a string. -/
theorem normalize_total_is_str (d : InvoiceData) :
    ∃ s, (normalize_invoice d).total_amount = Amount.str s := by
  cases h : d.total_amount with
  | str s => exact ⟨s, by simp [normalize_invoice, h]⟩
  | num q => exact ⟨formatTwoDec q, by simp [normalize_invoice, h]⟩

/-- A successful parse-validate-normalize outcome is the Normalizer's
image of some validated record. -/
theorem parseAndNormalize_ok_shape (env : Env) (r : String) (d : InvoiceData)
    (h : parseAndNormalize env r = Except.ok d) :
    ∃ inv, d = normalize_invoice inv := by
  unfold parseAndNormalize at h
  split at h
  · cases h
  · split at h
    · cases h
    · cases h
      exact ⟨_, rfl⟩

/-- A successful handler-body outcome is the Normalizer's image of some
validated record. -/
theorem analyze_body_ok_shape (env : Env) (ct : String) (inv : InvoiceData)
    (h : (analyze_invoice_body env ct).1 = Except.ok inv) :
    ∃ rec, inv = normalize_invoice rec := by
  simp only [analyze_invoice_body] at h
  repeat' split at h
  all_goals first
    | cases h
    | exact parseAndNormalize_ok_shape _ _ _ h

/-- C10: every successful response of the endpoint carries a string
`total_amount` — a numeric value accepted by the validator is converted by
the Normalizer before the record is returned, so a numeric `total_amount`
never reaches the caller. -/
theorem success_total_amount_is_string (env : Env) (ct : String)
    (d : InvoiceData) (tr : List Event)
    (h : analyze_invoice env ct = (Except.ok d, tr)) :
    ∃ s, d.total_amount = Amount.str s := by
  have h1 : handleExc (analyze_invoice_body env ct).1 = Except.ok d :=
    congrArg Prod.fst h
  have h2 : (analyze_invoice_body env ct).1 = Except.ok d := by
    cases hb : (analyze_invoice_body env ct).1 with
    | ok x =>
      rw [hb] at h1
      simp only [handleExc, Except.ok.injEq] at h1
      exact congrArg Except.ok h1
    | error e =>
      rw [hb] at h1
      cases e <;> simp [handleExc] at h1
  obtain ⟨rec, hrec⟩ := analyze_body_ok_shape env ct d h2
  rw [hrec]
  exact normalize_total_is_str rec

/-- Witness for C10: a successful image-path run returns `total_amount`
as the string "250.00". -/
theorem success_total_amount_is_string_witness :
    ∃ s, recOK.total_amount = Amount.str s :=
  success_total_amount_is_string envOK "image/png" recOK
    [Event.readFile, Event.modelCall] rfl

/-- A JSON value without a `total_amount` field never validates. -/
theorem validateInvoice_missing_total (j : Json)
    (h : hasField j "total_amount" = false) :
    ∃ m, validateInvoice j = Except.error m := by
  cases j with
  | obj kvs =>
    have hnone : getField kvs "total_amount" = none := by
      simp only [hasField] at h
      unfold getField
      cases hf : List.find? (fun p => p.1 = "total_amount") kvs with
      | none => rfl
      | some p => rw [hf] at h; cases h

    unfold validateInvoice
    simp only [hnone, validateAmount]
    repeat' split
    all_goals exact ⟨_, rfl⟩
  | null => exact ⟨_, rfl⟩
  | bool b => exact ⟨_, rfl⟩
  | num q => exact ⟨_, rfl⟩
  | str s => exact ⟨_, rfl⟩
  | arr elems => exact ⟨_, rfl⟩

/-- C1: whenever the model's response is syntactically valid JSON (it
parses to `j`) but `j` lacks the `total_amount` field, validation fails
and the endpoint returns HTTP 500 carrying the validation message, on any
allowed content-type path that reaches the model call. -/
theorem missing_total_amount_yields_500 (env : Env) (ct raw : String)
    (j : Json)
    (hct : ct ∈ allowed_types)
    (hpdf : ct = "application/pdf" →
      ∃ t, extract_text_from_pdf env env.fileBytes = Except.ok t ∧ t ≠ "")
    (hmc : env.modelCall = fun _ => Except.ok raw)
    (hpj : env.parseJson raw = Except.ok j)
    (hj : hasField j "total_amount" = false) :
    ∃ m, validateInvoice j = Except.error m ∧
      (analyze_invoice env ct).1 = Except.error (500, m) := by
  obtain ⟨m, hm⟩ := validateInvoice_missing_total j hj
  refine ⟨m, hm, ?_⟩
  have hpn : parseAndNormalize env raw = Except.error (Exc.other m) := by
    unfold parseAndNormalize
    simp only [hpj, hm]
  have hbody : (analyze_invoice_body env ct).1 = Except.error (Exc.other m) := by
    simp only [analyze_invoice_body, if_neg (not_not_intro hct)]
    by_cases hp : ct = "application/pdf"
    · obtain ⟨t, het, hne⟩ := hpdf hp
      simp only [if_pos hp, het, if_neg hne, hmc, hpn]
    · simp only [if_neg hp, hmc, hpn]
  have hfst : (analyze_invoice env ct).1 =
      handleExc (analyze_invoice_body env ct).1 := rfl
  rw [hfst, hbody]
  rfl

/-- Witness for C1: a response parsing to an object with only a vendor
field makes the endpoint answer 500 with the required-field message. -/
theorem missing_total_amount_yields_500_witness :
    ∃ m, validateInvoice (Json.obj [("vendor", Json.str "Acme Ltd")]) =
        Except.error m ∧
      (analyze_invoice envNoTotal "image/png").1 = Except.error (500, m) :=
  missing_total_amount_yields_500 envNoTotal "image/png" "raw model output"
    (Json.obj [("vendor", Json.str "Acme Ltd")])
    (by decide)
    (fun hp => absurd hp (by decide))
    rfl rfl rfl

/-- Parsing plus validation never raises an `HTTPException`: its failures
are plain exceptions, later mapped to 500. -/
theorem parseAndNormalize_not_http (env : Env) (r : String) (s : Nat)
    (det : String) :
    parseAndNormalize env r ≠ Except.error (Exc.httpExc s det) := by
  intro h
  unfold parseAndNormalize at h
  split at h
  · cases h
  · split at h
    · cases h
    · cases h

/-- C7: the two-tier error mapping — the endpoint's outcome is exactly the
body's outcome with `HTTPException`s passed through unchanged and every
other exception collapsed to one generic 500 carrying the exception's
message (so upstream failures and schema violations are indistinguishable
in the public response); moreover the only `HTTPException`s the body ever
raises are the two client errors, status 400 with the unsupported-type or
the no-readable-text message. -/
theorem error_mapping_two_tier (env : Env) (ct : String) :
    ((analyze_invoice env ct).1 =
      match (analyze_invoice_body env ct).1 with
      | Except.ok d => Except.ok d
      | Except.error (Exc.httpExc s det) => Except.error (s, det)
      | Except.error (Exc.other m) => Except.error (500, m))
    ∧ ∀ s det,
        (analyze_invoice_body env ct).1 = Except.error (Exc.httpExc s det) →
        s = 400 ∧ (det = "Unsupported file type" ∨
          det = "No readable text found in PDF (possibly scanned)") := by
  constructor
  · have hfst : (analyze_invoice env ct).1 =
        handleExc (analyze_invoice_body env ct).1 := rfl
    rw [hfst]
    cases hb : (analyze_invoice_body env ct).1 with
    | ok d => rfl
    | error e => cases e <;> rfl
  · intro s det h
    simp only [analyze_invoice_body] at h
    repeat' split at h
    all_goals first
      | exact absurd h (parseAndNormalize_not_http _ _ _ _)
      | simp_all

/-- Witness for C7: a dead model endpoint surfaces as 500 with the raw
message, while the client error keeps its 400 status and fixed message. -/
theorem error_mapping_two_tier_witness :
    (analyze_invoice envDown "image/png").1 =
      Except.error (500, "model endpoint unreachable")
    ∧ 400 = 400
    ∧ ("Unsupported file type" = "Unsupported file type" ∨
       "Unsupported file type" =
         "No readable text found in PDF (possibly scanned)") := by
  refine ⟨?_, ?_, ?_⟩
  · exact ((error_mapping_two_tier envDown "image/png").1).trans (by rfl)
  · exact ((error_mapping_two_tier envDown "text/plain").2 400
      "Unsupported file type" rfl).1
  · exact ((error_mapping_two_tier envDown "text/plain").2 400
      "Unsupported file type" rfl).2

end InvoiceAnalyzer
